import Mathlib

/-!
Verification of the rsllm `src/bin/music_player.py` watch loop.

The script scans a music directory for `.wav` files, sorts them by
modification time, hashes their concatenated contents with MD5, and
rebuilds a combined artifact via ffmpeg when the digest differs from a
persisted one or the artifact is missing, then plays the artifact with mpv.

The embedding below models the filesystem state the loop touches (the walk
of the music directory, the checksum scratch file, the playlist manifest,
and the existence of the combined artifact) explicitly, and models the two
external subprocesses by their exit codes supplied per iteration.  Python's
`hashlib.md5` is modelled by an executable MD5 implementation (RFC 1321)
together with an absorb-state structure whose `update` appends bytes, as
the library documents.
-/

/-- Bytes are modelled as natural numbers below 256; byte strings as lists. -/
abbrev Byte := Nat

/-- Helper for `chunksOf`: the first argument is recursion fuel, always
instantiated with the list's length, so the recursion is structural and the
kernel can evaluate it. -/
def chunksOfGo : Nat → Nat → List α → List (List α)
  | _, _, [] => []
  | _, 0, _ :: _ => []
  | 0, _ + 1, _ :: _ => []
  | fuel + 1, n + 1, a :: l =>
    ((a :: l).take (n + 1)) :: chunksOfGo fuel (n + 1) (l.drop n)

/-- Split a list into consecutive chunks of size `n` (the final chunk may be
shorter).  Models repeated `f.read(n)` until an empty read. -/
def chunksOf (n : Nat) (l : List α) : List (List α) :=
  chunksOfGo l.length n l

/-- Python's case-sensitive `str.endswith`, character by character. -/
def charListPrefix : List Char → List Char → Bool
  | [], _ => true
  | _ :: _, [] => false
  | a :: l, b :: m => (a = b) && charListPrefix l m

/-- Model of `s.endswith(suffix)`: the reversed suffix characters lead the
reversed string characters. -/
def pyEndsWith (s suffix : String) : Bool :=
  charListPrefix suffix.toList.reverse s.toList.reverse

/-- The set of characters Python's `str.strip()` removes. -/
def isPySpace (c : Char) : Bool :=
  c = ' ' || c = '\t' || c = '\n' || c = '\x0d' || c = '\x0b' || c = '\x0c'

/-- Python's `str.strip()`: drop leading and trailing whitespace. -/
def pyStrip (s : String) : String :=
  String.mk (((s.toList.dropWhile isPySpace).reverse.dropWhile isPySpace).reverse)

/-- Model of `os.path.join` for the paths this script produces (a directory
root joined with a plain file name). -/
def pathJoin (root filename : String) : String :=
  if pyEndsWith root "/" then root ++ filename else root ++ "/" ++ filename

/-! ### MD5 (RFC 1321), modelling `hashlib.md5` -/

/-- Left-rotate a 32-bit word (given as a `Nat` below `2^32`). -/
def rotl32 (x n : Nat) : Nat :=
  ((x <<< n) ||| (x >>> (32 - n))) % 4294967296

/-- The 64 MD5 sine-derived constants `T[i]`. -/
def md5T : List Nat :=
  [0xd76aa478, 0xe8c7b756, 0x242070db, 0xc1bdceee,
   0xf57c0faf, 0x4787c62a, 0xa8304613, 0xfd469501,
   0x698098d8, 0x8b44f7af, 0xffff5bb1, 0x895cd7be,
   0x6b901122, 0xfd987193, 0xa679438e, 0x49b40821,
   0xf61e2562, 0xc040b340, 0x265e5a51, 0xe9b6c7aa,
   0xd62f105d, 0x02441453, 0xd8a1e681, 0xe7d3fbc8,
   0x21e1cde6, 0xc33707d6, 0xf4d50d87, 0x455a14ed,
   0xa9e3e905, 0xfcefa3f8, 0x676f02d9, 0x8d2a4c8a,
   0xfffa3942, 0x8771f681, 0x6d9d6122, 0xfde5380c,
   0xa4beea44, 0x4bdecfa9, 0xf6bb4b60, 0xbebfbc70,
   0x289b7ec6, 0xeaa127fa, 0xd4ef3085, 0x04881d05,
   0xd9d4d039, 0xe6db99e5, 0x1fa27cf8, 0xc4ac5665,
   0xf4292244, 0x432aff97, 0xab9423a7, 0xfc93a039,
   0x655b59c3, 0x8f0ccc92, 0xffeff47d, 0x85845dd1,
   0x6fa87e4f, 0xfe2ce6e0, 0xa3014314, 0x4e0811a1,
   0xf7537e82, 0xbd3af235, 0x2ad7d2bb, 0xeb86d391]

/-- The per-operation rotation amounts. -/
def md5S : List Nat :=
  [7, 12, 17, 22, 7, 12, 17, 22, 7, 12, 17, 22, 7, 12, 17, 22,
   5, 9, 14, 20, 5, 9, 14, 20, 5, 9, 14, 20, 5, 9, 14, 20,
   4, 11, 16, 23, 4, 11, 16, 23, 4, 11, 16, 23, 4, 11, 16, 23,
   6, 10, 15, 21, 6, 10, 15, 21, 6, 10, 15, 21, 6, 10, 15, 21]

/-- The round function of operation `i`. -/
def md5F (i b c d : Nat) : Nat :=
  if i < 16 then (b &&& c) ||| ((b ^^^ 4294967295) &&& d)
  else if i < 32 then (d &&& b) ||| ((d ^^^ 4294967295) &&& c)
  else if i < 48 then b ^^^ c ^^^ d
  else c ^^^ (b ||| (d ^^^ 4294967295))

/-- The message-word index used by operation `i`. -/
def md5G (i : Nat) : Nat :=
  if i < 16 then i
  else if i < 32 then (5 * i + 1) % 16
  else if i < 48 then (3 * i + 5) % 16
  else (7 * i) % 16

/-- Interpret up to four bytes as a little-endian 32-bit word. -/
def leWord (bs : List Byte) : Nat :=
  bs.foldr (fun b acc => b + 256 * acc) 0

/-- One MD5 operation on the rolling `(a, b, c, d)` state. -/
def md5Op (m : List Nat) (st : Nat × Nat × Nat × Nat) (i : Nat) :
    Nat × Nat × Nat × Nat :=
  let (a, b, c, d) := st
  let tmp := (a + md5F i b c d + md5T.getD i 0 + m.getD (md5G i) 0) % 4294967296
  (d, (b + rotl32 tmp (md5S.getD i 0)) % 4294967296, b, c)

/-- Compress one 64-byte block into the chaining state. -/
def md5Block (st : Nat × Nat × Nat × Nat) (block : List Byte) :
    Nat × Nat × Nat × Nat :=
  let m := (chunksOf 4 block).map leWord
  let (a, b, c, d) := st
  let (a2, b2, c2, d2) := (List.range 64).foldl (md5Op m) st
  ((a + a2) % 4294967296, (b + b2) % 4294967296,
   (c + c2) % 4294967296, (d + d2) % 4294967296)

/-- MD5 padding: a `0x80` byte, zeros to 56 mod 64, then the bit length as a
little-endian 64-bit number. -/
def md5Pad (msg : List Byte) : List Byte :=
  msg ++ [128] ++ List.replicate ((120 - ((msg.length + 1) % 64)) % 64) 0
      ++ (List.range 8).map (fun i => ((8 * msg.length) >>> (8 * i)) % 256)

/-- Lowercase hex character for a value below 16. -/
def hexChar (n : Nat) : Char :=
  match n with
  | 0 => '0' | 1 => '1' | 2 => '2' | 3 => '3'
  | 4 => '4' | 5 => '5' | 6 => '6' | 7 => '7'
  | 8 => '8' | 9 => '9' | 10 => 'a' | 11 => 'b'
  | 12 => 'c' | 13 => 'd' | 14 => 'e' | _ => 'f'

/-- Two lowercase hex characters of a byte. -/
def byteHex (b : Byte) : List Char :=
  [hexChar (b / 16 % 16), hexChar (b % 16)]

/-- The four little-endian bytes of a 32-bit word. -/
def wordLEBytes (w : Nat) : List Byte :=
  (List.range 4).map (fun i => (w >>> (8 * i)) % 256)

/-- Full MD5 lowercase hex digest of a byte string. -/
def md5Hex (msg : List Byte) : String :=
  let st :=
    (chunksOf 64 (md5Pad msg)).foldl md5Block
      (0x67452301, 0xefcdab89, 0x98badcfe, 0x10325476)
  String.mk (([st.1, st.2.1, st.2.2.1, st.2.2.2].flatMap wordLEBytes).flatMap
    byteHex)

/-- Model of a `hashlib.md5` object: the bytes absorbed so far.  `update`
appends to the stream; `hexdigest` hashes exactly the absorbed stream, as
the `hashlib` documentation specifies. -/
structure HashMD5 where
  absorbed : List Byte
deriving DecidableEq, Repr

/-- Model of `hashlib.md5()`: a fresh object with nothing absorbed. -/
def HashMD5.init : HashMD5 := ⟨[]⟩

/-- Model of `m.update(chunk)`. -/
def HashMD5.update (h : HashMD5) (chunk : List Byte) : HashMD5 :=
  ⟨h.absorbed ++ chunk⟩

/-- Model of `m.hexdigest()`. -/
def HashMD5.hexdigest (h : HashMD5) : String :=
  md5Hex h.absorbed

/-! ### Configuration constants of the script -/

/-- Source constant `music_dir`. -/
def music_dir : String := "/Volumes/BrahmaSSD/music/AiGen"

/-- Source constant `output_file`. -/
def output_file : String := "/tmp/combined_playlist.wav"

/-- Source constant `playlist_file`. -/
def playlist_file : String := "/tmp/ffmpeg_playlist.txt"

/-- Source constant `checksum_file`. -/
def checksum_file : String := "/tmp/playlist_checksum.txt"

/-! ### Filesystem model -/

/-- One regular file produced by `os.walk` over the music directory: the
directory it sits in, its name, its modification time, and its bytes. -/
structure WalkEntry where
  root : String
  filename : String
  mtime : Nat
  content : List Byte
deriving DecidableEq, Repr

/-- The full path `os.path.join(root, filename)` of a walk entry. -/
def WalkEntry.fullPath (e : WalkEntry) : String :=
  pathJoin e.root e.filename

/-- The filesystem state the loop touches: the walk of the music directory
in traversal order, the contents of the checksum scratch file and the
playlist manifest (`none` when the file does not exist), and whether the
combined artifact exists. -/
structure World where
  walk : List WalkEntry
  checksumFile : Option String
  playlistFile : Option String
  outputExists : Bool
deriving DecidableEq, Repr

/-- Model of `os.path.getmtime` on a full path, looked up in the walk. -/
def World.getmtime (w : World) (path : String) : Nat :=
  match w.walk.find? (fun e => e.fullPath = path) with
  | some e => e.mtime
  | none => 0

/-- Model of `open(path, "rb").read()`, looked up in the walk. -/
def World.readBytes (w : World) (path : String) : List Byte :=
  match w.walk.find? (fun e => e.fullPath = path) with
  | some e => e.content
  | none => []

/-! ### The script's functions -/

/-- Source `get_files_sorted_by_mtime`: walk the directory, keep files whose
name ends with `extension` (case-sensitively), and sort the full paths
ascending by modification time.  Python's `sorted` is a stable sort; so is
`List.insertionSort`, used here. -/
def get_files_sorted_by_mtime (w : World) (extension : String := ".wav") :
    List String :=
  let files := (w.walk.filter (fun e => pyEndsWith e.filename extension)).map
    WalkEntry.fullPath
  List.insertionSort (fun a b => w.getmtime a ≤ w.getmtime b) files

/-- Source `generate_playlist`: the manifest text written to the playlist
path — opened with mode `w` (truncating), then one `file '<path>'` line
written per file, in order, with no escaping. -/
def generate_playlist (files : List String) : String :=
  files.foldl (fun acc file => acc ++ "file '" ++ file ++ "'\n") ""

/-- Source `calculate_checksum`: stream every file, in order, through one
accumulating MD5 object, reading each file in chunks of 4096 bytes, and
return the hex digest. -/
def calculate_checksum (w : World) (files : List String) : String :=
  let hash_md5 := files.foldl
    (fun h file => (chunksOf 4096 (w.readBytes file)).foldl HashMD5.update h)
    HashMD5.init
  hash_md5.hexdigest

/-- Source `read_previous_checksum`: read and strip the checksum scratch
file; a missing file (`FileNotFoundError`) yields the empty string. -/
def read_previous_checksum (contents : Option String) : String :=
  match contents with
  | some s => pyStrip s
  | none => ""

/-- Source `write_new_checksum`: overwrite the checksum scratch file with
the digest, whatever it held before. -/
def write_new_checksum (checksum : String) (_prev : Option String) :
    Option String :=
  some checksum

/-- The argument vector of the ffmpeg invocation in `concatenate_files`. -/
def ffmpegCmd (playlist_path output_path : String) : List String :=
  ["ffmpeg", "-y", "-hide_banner", "-f", "concat", "-safe", "0",
   "-i", playlist_path, "-c", "copy", output_path]

/-- The argument vector of the mpv invocation in `play_audio`. -/
def mpvCmd (file_path : String) : List String :=
  ["mpv", "--volume=50", file_path]

/-- Observable actions of one loop iteration: `print` output and subprocess
invocations. -/
inductive Event where
  | print (msg : String)
  | run (cmd : List String)
deriving DecidableEq, Repr

/-- The exception a `subprocess.run(cmd, check=True)` raises on a non-zero
exit status. -/
inductive PyExcept where
  | calledProcessError (cmd : List String) (returncode : Nat)
deriving DecidableEq, Repr

/-- Exit statuses of the two external tools for one loop iteration. -/
structure ExtBehavior where
  ffmpegExit : Nat
  mpvExit : Nat
deriving DecidableEq, Repr

/-- Result of running (a prefix of) the loop: the filesystem state after
all effects that happened, the uncaught exception if one was raised, and
the observable events in order. -/
structure StepResult where
  world : World
  error : Option PyExcept
  events : List Event
deriving DecidableEq, Repr

/-- Source `concatenate_files`: print the command line, run ffmpeg with
`check=True`.  On exit status 0 the artifact exists afterwards (ffmpeg with
`-y` writes `output_path`); a non-zero status raises
`CalledProcessError`. -/
def concatenate_files (playlist_path output_path : String) (w : World)
    (ffmpegExit : Nat) : StepResult :=
  let cmd := ffmpegCmd playlist_path output_path
  let evs := [Event.print ("Running command: " ++ String.intercalate " " cmd),
              Event.run cmd]
  if ffmpegExit = 0 then
    ⟨{ w with outputExists := true }, none, evs⟩
  else
    ⟨w, some (PyExcept.calledProcessError cmd ffmpegExit), evs⟩

/-- Source `play_audio`: run mpv with `check=True`; a non-zero exit status
raises `CalledProcessError`. -/
def play_audio (file_path : String) (mpvExit : Nat) :
    Option PyExcept × List Event :=
  if mpvExit = 0 then
    (none, [Event.run (mpvCmd file_path)])
  else
    (some (PyExcept.calledProcessError (mpvCmd file_path) mpvExit),
     [Event.run (mpvCmd file_path)])

/-- One iteration of the `while True` loop body, from the top of the loop
to the bottom (or to the first uncaught exception). -/
def loopBody (w : World) (b : ExtBehavior) : StepResult :=
  let files := get_files_sorted_by_mtime w
  if files.isEmpty then
    ⟨w, none, [Event.print "No .wav files found in the directory."]⟩
  else
    let current_checksum := calculate_checksum w files
    let previous_checksum := read_previous_checksum w.checksumFile
    if current_checksum ≠ previous_checksum ∨ w.outputExists = false then
      let evs0 := [Event.print "Changes detected or output file missing, regenerating..."]
      let w1 := { w with playlistFile := some (generate_playlist files) }
      let r := concatenate_files playlist_file output_file w1 b.ffmpegExit
      match r.error with
      | some e => ⟨r.world, some e, evs0 ++ r.events⟩
      | none =>
        let w2 := { r.world with
          checksumFile := write_new_checksum current_checksum r.world.checksumFile }
        let (perr, pevs) := play_audio output_file b.mpvExit
        ⟨w2, perr, evs0 ++ r.events
          ++ [Event.print "Playing combined playlist..."] ++ pevs⟩
    else
      let (perr, pevs) := play_audio output_file b.mpvExit
      ⟨w, perr,
        [Event.print "No changes detected. Using existing combined audio file.",
         Event.print "Playing combined playlist..."] ++ pevs⟩

/-- Run the loop for one iteration per behavior in the list, stopping when
an iteration raises: the exception is not caught inside the loop, so no
later iteration runs. -/
def runLoop (w : World) : List ExtBehavior → StepResult
  | [] => ⟨w, none, []⟩
  | b :: bs =>
    let r := loopBody w b
    match r.error with
    | some e => ⟨r.world, some e, r.events⟩
    | none =>
      let rest := runLoop r.world bs
      ⟨rest.world, rest.error, r.events ++ rest.events⟩

/-- Does an event list contain an ffmpeg invocation (the transcoder run)? -/
def hasFfmpegRun (evs : List Event) : Bool :=
  evs.any (fun e => match e with
    | Event.run cmd => cmd.head? = some "ffmpeg"
    | _ => false)

/-- Does an event list contain an mpv invocation (a playback attempt)? -/
def hasMpvRun (evs : List Event) : Bool :=
  evs.any (fun e => match e with
    | Event.run cmd => cmd.head? = some "mpv"
    | _ => false)


/-! ### Lemmas about stripping and hex digests -/

theorem dropWhile_eq_self_of_all {p : α → Bool} {l : List α}
    (h : ∀ c ∈ l, p c = false) : l.dropWhile p = l := by
  cases l with
  | nil => rfl
  | cons a l => simp [List.dropWhile_cons, h a (List.mem_cons_self a l)]

theorem pyStrip_eq_self (s : String)
    (h : ∀ c ∈ s.toList, isPySpace c = false) : pyStrip s = s := by
  unfold pyStrip
  rw [dropWhile_eq_self_of_all h]
  rw [dropWhile_eq_self_of_all (by intro c hc; exact h c (List.mem_reverse.mp hc))]
  rw [List.reverse_reverse]
  cases s
  rfl

theorem isPySpace_hexChar (n : Nat) : isPySpace (hexChar n) = false := by
  unfold hexChar
  split <;> decide

theorem md5Hex_chars (msg : List Byte) :
    ∀ c ∈ (md5Hex msg).toList, isPySpace c = false := by
  unfold md5Hex
  intro c hc
  simp only [String.toList, List.mem_flatMap] at hc
  obtain ⟨b, _, hb⟩ := hc
  simp only [byteHex, List.mem_cons, List.not_mem_nil, or_false] at hb
  rcases hb with rfl | rfl <;> exact isPySpace_hexChar _

theorem pyStrip_md5Hex (msg : List Byte) : pyStrip (md5Hex msg) = md5Hex msg :=
  pyStrip_eq_self _ (md5Hex_chars msg)

theorem pyStrip_calculate_checksum (w : World) (files : List String) :
    pyStrip (calculate_checksum w files) = calculate_checksum w files :=
  pyStrip_md5Hex _

/-! ### Checksum: chunking and streaming lemmas -/

theorem chunksOfGo_flatten (n : Nat) (hn : n ≠ 0) :
    ∀ (fuel : Nat) (l : List α), l.length ≤ fuel →
      (chunksOfGo fuel n l).flatten = l := by
  intro fuel
  induction fuel with
  | zero =>
    intro l hl
    cases l with
    | nil => cases n with
      | zero => exact absurd rfl hn
      | succ m => rfl
    | cons a l => simp at hl
  | succ f ih =>
    intro l hl
    cases l with
    | nil => cases n with
      | zero => exact absurd rfl hn
      | succ m => rfl
    | cons a l =>
      cases n with
      | zero => exact absurd rfl hn
      | succ m =>
        show (((a :: l).take (m + 1))
            :: chunksOfGo f (m + 1) (l.drop m)).flatten = a :: l
        rw [List.flatten_cons,
          ih (l.drop m) (by simp only [List.length_drop]
                            simp only [List.length_cons] at hl
                            omega)]
        show List.take (m + 1) (a :: l) ++ List.drop (m + 1) (a :: l) = a :: l
        exact List.take_append_drop _ _

theorem chunksOf_flatten (n : Nat) (hn : n ≠ 0) (l : List α) :
    (chunksOf n l).flatten = l :=
  chunksOfGo_flatten n hn l.length l (Nat.le_refl _)

theorem foldl_update_absorbed (cs : List (List Byte)) :
    ∀ h : HashMD5, (cs.foldl HashMD5.update h).absorbed = h.absorbed ++ cs.flatten := by
  induction cs with
  | nil => intro h; simp
  | cons c cs ih => intro h; simp [ih, HashMD5.update]

theorem calculate_checksum_absorbed (w : World) (files : List String) :
    ∀ h : HashMD5,
      (files.foldl
        (fun h file => (chunksOf 4096 (w.readBytes file)).foldl HashMD5.update h)
        h).absorbed
      = h.absorbed ++ (files.map w.readBytes).flatten := by
  induction files with
  | nil => intro h; simp
  | cons f fs ih =>
    intro h
    simp only [List.foldl_cons, List.map_cons, List.flatten_cons]
    rw [ih, foldl_update_absorbed, chunksOf_flatten 4096 (by decide), List.append_assoc]

/-- Specification-side checksum, stated the way the spec words it: the
digest of the single concatenated byte string of all files in scan order
(for comparison with the chunked streaming `calculate_checksum`). -/
def checksumSpec (w : World) (files : List String) : String :=
  md5Hex ((files.map w.readBytes).flatten)

/-- C3: the checksum function is a pure function of the files' byte
contents and their scan order — the digest obtained by streaming each file
through the accumulating hash in 4096-byte chunks equals the digest of the
single concatenated byte string of all files in that order, so the
chunking does not affect the result. -/
theorem C3_checksum_chunk_invariant (w : World) (files : List String) :
    calculate_checksum w files = checksumSpec w files := by
  show md5Hex
      ((files.foldl
        (fun h file => (chunksOf 4096 (w.readBytes file)).foldl HashMD5.update h)
        HashMD5.init).absorbed)
    = md5Hex ((files.map w.readBytes).flatten)
  rw [calculate_checksum_absorbed]
  rfl

/-! ### Checksum cache round trip -/

/-- C6: writing a digest (one with no surrounding whitespace, as every hex
digest is) with the checksum writer and reading it back with the checksum
reader yields the identical string, and reading a checksum path that does
not exist yields the empty string rather than an error. -/
theorem C6_checksum_roundtrip (s : String) (prev : Option String)
    (hs : ∀ c ∈ s.toList, isPySpace c = false) :
    read_previous_checksum (write_new_checksum s prev) = s ∧
    read_previous_checksum none = "" := by
  constructor
  · show pyStrip s = s
    exact pyStrip_eq_self s hs
  · rfl

theorem C6_checksum_roundtrip_witness :
    (∀ c ∈ ("d41d8cd98f00b204e9800998ecf8427e" : String).toList,
        isPySpace c = false) ∧
    read_previous_checksum
        (write_new_checksum "d41d8cd98f00b204e9800998ecf8427e" none)
      = "d41d8cd98f00b204e9800998ecf8427e" ∧
    read_previous_checksum none = "" := by
  refine ⟨by decide, ?_⟩
  have h := C6_checksum_roundtrip "d41d8cd98f00b204e9800998ecf8427e" none (by decide)
  exact h

/-! ### Scanner lemmas -/

theorem find?_congr_of_perm {l₁ l₂ : List WalkEntry} (hperm : l₁.Perm l₂)
    (hnd : (l₂.map WalkEntry.fullPath).Nodup) (p : String) :
    l₁.find? (fun e => e.fullPath = p) = l₂.find? (fun e => e.fullPath = p) := by
  cases h1 : l₁.find? (fun e => e.fullPath = p) with
  | none =>
    cases h2 : l₂.find? (fun e => e.fullPath = p) with
    | none => rfl
    | some e =>
      exact absurd (List.find?_some h2)
        (by simpa using List.find?_eq_none.mp h1 e (hperm.mem_iff.mpr
          (List.mem_of_find?_eq_some h2)))
  | some e =>
    have he1 : e ∈ l₂ := hperm.mem_iff.mp (List.mem_of_find?_eq_some h1)
    have hp1 : e.fullPath = p := by simpa using List.find?_some h1
    cases h2 : l₂.find? (fun e => e.fullPath = p) with
    | none =>
      exact absurd (List.find?_eq_none.mp h2 e he1) (by simp [hp1])
    | some e2 =>
      have hp2 : e2.fullPath = p := by simpa using List.find?_some h2
      rw [List.inj_on_of_nodup_map hnd he1 (List.mem_of_find?_eq_some h2)
        (hp1.trans hp2.symm)]

theorem getmtime_congr_of_perm {w w' : World} (hperm : w.walk.Perm w'.walk)
    (hnd : (w'.walk.map WalkEntry.fullPath).Nodup) (p : String) :
    w.getmtime p = w'.getmtime p := by
  unfold World.getmtime
  rw [find?_congr_of_perm hperm hnd p]

theorem getmtime_fullPath {w : World} {e : WalkEntry} (he : e ∈ w.walk)
    (hnd : (w.walk.map WalkEntry.fullPath).Nodup) :
    w.getmtime e.fullPath = e.mtime := by
  unfold World.getmtime
  cases h : w.walk.find? (fun x => x.fullPath = e.fullPath) with
  | none => exact absurd (List.find?_eq_none.mp h e he) (by simp)
  | some x =>
    rw [List.inj_on_of_nodup_map hnd (List.mem_of_find?_eq_some h) he
      (by simpa using List.find?_some h)]

theorem sorted_lt_of_sorted_le_nodup (key : α → Nat) (s : List α)
    (hs : s.Sorted (fun a b => key a ≤ key b)) (hnd : (s.map key).Nodup) :
    s.Sorted (fun a b => key a < key b) := by
  have hne : s.Pairwise (fun a b => key a ≠ key b) := List.pairwise_map.mp hnd
  exact (hs.and hne).imp (fun h => Nat.lt_of_le_of_ne h.1 h.2)

theorem eq_of_perm_of_sorted_key (key : α → Nat) {s s' : List α}
    (hperm : s.Perm s') (hnd : (s.map key).Nodup)
    (hs : s.Sorted (fun a b => key a ≤ key b))
    (hs' : s'.Sorted (fun a b => key a ≤ key b)) : s = s' := by
  haveI : IsAntisymm α (fun a b => key a < key b) :=
    ⟨fun a b h1 h2 => absurd h1 (Nat.lt_asymm h2)⟩
  exact List.eq_of_perm_of_sorted hperm
    (sorted_lt_of_sorted_le_nodup key s hs hnd)
    (sorted_lt_of_sorted_le_nodup key s' hs'
      (((hperm.map key).nodup_iff).mp hnd))

/-- C2: on a directory whose matching files have pairwise distinct
modification times (and, as on a real filesystem, pairwise distinct full
paths), the scanner returns exactly the full paths of the files whose
names end with the extension (case-sensitively), sorted ascending by
modification time; the output is identical for every permutation of the
underlying traversal order, and an empty directory yields the empty list
as a normal outcome. -/
theorem C2_scanner_sorted_by_mtime (w : World) (ext : String)
    (hpath : (w.walk.map WalkEntry.fullPath).Nodup)
    (hmt : ((w.walk.filter (fun e => pyEndsWith e.filename ext)).map
      WalkEntry.mtime).Nodup) :
    (get_files_sorted_by_mtime w ext).Perm
        ((w.walk.filter (fun e => pyEndsWith e.filename ext)).map
          WalkEntry.fullPath) ∧
    (get_files_sorted_by_mtime w ext).Sorted
        (fun a b => w.getmtime a ≤ w.getmtime b) ∧
    (∀ w' : World, w'.walk.Perm w.walk →
        get_files_sorted_by_mtime w' ext = get_files_sorted_by_mtime w ext) ∧
    (w.walk = [] → get_files_sorted_by_mtime w ext = []) := by
  haveI hTot : IsTotal String (fun a b => w.getmtime a ≤ w.getmtime b) :=
    ⟨fun a b => Nat.le_total _ _⟩
  haveI hTr : IsTrans String (fun a b => w.getmtime a ≤ w.getmtime b) :=
    ⟨fun _ _ _ => Nat.le_trans⟩
  have hkey : ((get_files_sorted_by_mtime w ext).map w.getmtime).Nodup := by
    have hmem : ∀ e ∈ w.walk.filter (fun e => pyEndsWith e.filename ext),
        e ∈ w.walk := fun e he => (List.mem_filter.mp he).1
    have hmapeq :
        ((w.walk.filter (fun e => pyEndsWith e.filename ext)).map
            WalkEntry.fullPath).map w.getmtime
          = (w.walk.filter (fun e => pyEndsWith e.filename ext)).map
              WalkEntry.mtime := by
      rw [List.map_map]
      exact List.map_congr_left
        (fun e he => getmtime_fullPath (hmem e he) hpath)
    have hperm :
        ((get_files_sorted_by_mtime w ext).map w.getmtime).Perm
          (((w.walk.filter (fun e => pyEndsWith e.filename ext)).map
            WalkEntry.fullPath).map w.getmtime) :=
      (List.perm_insertionSort _ _).map _
    rw [hmapeq] at hperm
    exact hperm.nodup_iff.mpr hmt
  refine ⟨List.perm_insertionSort _ _, List.sorted_insertionSort _ _, ?_, ?_⟩
  · intro w' hwp
    have hnd' : (w'.walk.map WalkEntry.fullPath).Nodup :=
      ((hwp.map WalkEntry.fullPath).nodup_iff).mpr hpath
    have hgm : ∀ p, w'.getmtime p = w.getmtime p :=
      fun p => getmtime_congr_of_perm hwp.symm.symm hpath p
    have hrel : (fun a b => w'.getmtime a ≤ w'.getmtime b)
        = (fun a b : String => w.getmtime a ≤ w.getmtime b) := by
      funext a b
      rw [hgm a, hgm b]
    have hps : (get_files_sorted_by_mtime w' ext).Perm
        (get_files_sorted_by_mtime w ext) := by
      refine ((List.perm_insertionSort _ _).trans ?_).trans
        (List.perm_insertionSort _ _).symm
      exact (hwp.filter _).map _
    have hs'0 : (get_files_sorted_by_mtime w' ext).Sorted
        (fun a b => w'.getmtime a ≤ w'.getmtime b) := by
      haveI : IsTotal String (fun a b => w'.getmtime a ≤ w'.getmtime b) :=
        ⟨fun a b => Nat.le_total _ _⟩
      haveI : IsTrans String (fun a b => w'.getmtime a ≤ w'.getmtime b) :=
        ⟨fun _ _ _ => Nat.le_trans⟩
      exact List.sorted_insertionSort _ _
    rw [hrel] at hs'0
    exact eq_of_perm_of_sorted_key w.getmtime hps
      ((hps.map w.getmtime).nodup_iff.mpr hkey) hs'0
      (List.sorted_insertionSort _ _)
  · intro hw
    simp [get_files_sorted_by_mtime, hw]


/-! ### Loop body shape lemmas -/

theorem loopBody_no_files {w : World} (b : ExtBehavior)
    (h : get_files_sorted_by_mtime w = []) :
    loopBody w b
      = ⟨w, none, [Event.print "No .wav files found in the directory."]⟩ := by
  unfold loopBody
  rw [h]
  rfl

theorem loopBody_skip {w : World} (b : ExtBehavior)
    (hne : get_files_sorted_by_mtime w ≠ [])
    (hc : calculate_checksum w (get_files_sorted_by_mtime w)
        = read_previous_checksum w.checksumFile)
    (ho : w.outputExists = true) :
    loopBody w b =
      ⟨w, (play_audio output_file b.mpvExit).1,
        [Event.print "No changes detected. Using existing combined audio file.",
         Event.print "Playing combined playlist..."]
          ++ (play_audio output_file b.mpvExit).2⟩ := by
  have hie : (get_files_sorted_by_mtime w).isEmpty = false := by
    cases hgf : get_files_sorted_by_mtime w with
    | nil => exact absurd hgf hne
    | cons a l => rfl
  rcases hp : play_audio output_file b.mpvExit with ⟨perr, pevs⟩
  simp only [loopBody, hie, Bool.false_eq_true, if_false, hp]
  rw [if_neg]
  · rintro (hd | hd)
    · exact hd hc
    · rw [ho] at hd
      simp at hd

theorem loopBody_rebuild_ok {w : World} (b : ExtBehavior)
    (hne : get_files_sorted_by_mtime w ≠ [])
    (hcond : calculate_checksum w (get_files_sorted_by_mtime w)
        ≠ read_previous_checksum w.checksumFile ∨ w.outputExists = false)
    (hf : b.ffmpegExit = 0) :
    loopBody w b =
      ⟨{ w with
          playlistFile :=
            some (generate_playlist (get_files_sorted_by_mtime w)),
          outputExists := true,
          checksumFile :=
            some (calculate_checksum w (get_files_sorted_by_mtime w)) },
        (play_audio output_file b.mpvExit).1,
        [Event.print "Changes detected or output file missing, regenerating...",
         Event.print ("Running command: " ++ String.intercalate " "
           (ffmpegCmd playlist_file output_file)),
         Event.run (ffmpegCmd playlist_file output_file),
         Event.print "Playing combined playlist..."]
          ++ (play_audio output_file b.mpvExit).2⟩ := by
  have hie : (get_files_sorted_by_mtime w).isEmpty = false := by
    cases hgf : get_files_sorted_by_mtime w with
    | nil => exact absurd hgf hne
    | cons a l => rfl
  rcases hp : play_audio output_file b.mpvExit with ⟨perr, pevs⟩
  simp only [loopBody, concatenate_files, hie, Bool.false_eq_true, if_false,
    hp, hf, if_pos hcond, if_true, write_new_checksum]
  constructor

theorem loopBody_rebuild_fail {w : World} (b : ExtBehavior)
    (hne : get_files_sorted_by_mtime w ≠ [])
    (hcond : calculate_checksum w (get_files_sorted_by_mtime w)
        ≠ read_previous_checksum w.checksumFile ∨ w.outputExists = false)
    (hf : b.ffmpegExit ≠ 0) :
    loopBody w b =
      ⟨{ w with
          playlistFile :=
            some (generate_playlist (get_files_sorted_by_mtime w)) },
        some (PyExcept.calledProcessError (ffmpegCmd playlist_file output_file)
          b.ffmpegExit),
        [Event.print "Changes detected or output file missing, regenerating...",
         Event.print ("Running command: " ++ String.intercalate " "
           (ffmpegCmd playlist_file output_file)),
         Event.run (ffmpegCmd playlist_file output_file)]⟩ := by
  have hie : (get_files_sorted_by_mtime w).isEmpty = false := by
    cases hgf : get_files_sorted_by_mtime w with
    | nil => exact absurd hgf hne
    | cons a l => rfl
  simp only [loopBody, concatenate_files, hie, Bool.false_eq_true, if_false,
    if_pos hcond, if_neg hf]
  constructor

theorem play_audio_events (f : String) (x : Nat) :
    (play_audio f x).2 = [Event.run (mpvCmd f)] := by
  unfold play_audio
  split <;> rfl

theorem play_audio_error_of_ne (f : String) (x : Nat) (hx : x ≠ 0) :
    (play_audio f x).1 = some (PyExcept.calledProcessError (mpvCmd f) x) := by
  unfold play_audio
  rw [if_neg hx]

theorem play_audio_error_of_eq (f : String) (x : Nat) (hx : x = 0) :
    (play_audio f x).1 = none := by
  unfold play_audio
  rw [if_pos hx]

theorem runLoop_cons_ok {w : World} {b : ExtBehavior} (bs : List ExtBehavior)
    (h : (loopBody w b).error = none) :
    runLoop w (b :: bs)
      = ⟨(runLoop (loopBody w b).world bs).world,
         (runLoop (loopBody w b).world bs).error,
         (loopBody w b).events ++ (runLoop (loopBody w b).world bs).events⟩ := by
  simp only [runLoop, h]

theorem runLoop_cons_err {w : World} {b : ExtBehavior} (bs : List ExtBehavior)
    {e : PyExcept} (h : (loopBody w b).error = some e) :
    runLoop w (b :: bs)
      = ⟨(loopBody w b).world, some e, (loopBody w b).events⟩ := by
  simp only [runLoop, h]

/-! ### Congruence in the walk -/

theorem get_files_congr {w w' : World} (h : w'.walk = w.walk) (ext : String) :
    get_files_sorted_by_mtime w' ext = get_files_sorted_by_mtime w ext := by
  simp only [get_files_sorted_by_mtime, World.getmtime, h]

theorem calculate_checksum_congr {w w' : World} (h : w'.walk = w.walk)
    (files : List String) :
    calculate_checksum w' files = calculate_checksum w files := by
  simp only [calculate_checksum, World.readBytes, h]

/-! ### String join lemmas for the playlist -/

theorem string_foldl_append (l : List String) :
    ∀ a : String, l.foldl (· ++ ·) a = a ++ l.foldl (· ++ ·) "" := by
  induction l with
  | nil => intro a; exact (String.append_empty a).symm
  | cons s l ih =>
    intro a
    show l.foldl (· ++ ·) (a ++ s) = a ++ l.foldl (· ++ ·) ("" ++ s)
    rw [ih (a ++ s), ih ("" ++ s), String.empty_append, String.append_assoc]

theorem string_join_cons (s : String) (l : List String) :
    String.join (s :: l) = s ++ String.join l := by
  show (s :: l).foldl (· ++ ·) "" = s ++ l.foldl (· ++ ·) ""
  show l.foldl (· ++ ·) ("" ++ s) = s ++ l.foldl (· ++ ·) ""
  rw [String.empty_append, string_foldl_append l s]

theorem generate_playlist_join (files : List String) :
    generate_playlist files
      = String.join (files.map (fun f => "file '" ++ f ++ "'\n")) := by
  unfold generate_playlist
  have key : ∀ (fs : List String) (a : String),
      fs.foldl (fun acc file => acc ++ "file '" ++ file ++ "'\n") a
        = a ++ String.join (fs.map (fun f => "file '" ++ f ++ "'\n")) := by
    intro fs
    induction fs with
    | nil => intro a; exact (String.append_empty a).symm
    | cons f fs ih =>
      intro a
      show fs.foldl _ (a ++ "file '" ++ f ++ "'\n") = _
      rw [ih, List.map_cons, string_join_cons]
      simp [String.append_assoc]
  have h := key files ""
  rw [String.empty_append] at h
  exact h

/-! ### Sample data for concrete witnesses -/

/-- Sample file with the earliest modification time. -/
def sampleA : WalkEntry := ⟨music_dir, "a.wav", 1, [0, 1, 2]⟩

/-- Sample file with the middle modification time. -/
def sampleB : WalkEntry := ⟨music_dir, "b.wav", 2, [3, 4]⟩

/-- Sample file with the latest modification time. -/
def sampleC : WalkEntry := ⟨music_dir, "c.wav", 3, [5]⟩

/-- Sample non-matching file (wrong extension). -/
def sampleTxt : WalkEntry := ⟨music_dir, "notes.txt", 7, [9]⟩

/-- A directory listing in scrambled traversal order, no caches yet. -/
def wScrambled : World :=
  ⟨[sampleB, sampleC, sampleA, sampleTxt], none, none, false⟩

/-- The same directory under another traversal order, other caches. -/
def wPermuted : World :=
  ⟨[sampleTxt, sampleA, sampleC, sampleB], some "stale", none, true⟩

/-- A directory with no files at all but a stale artifact present. -/
def wEmpty : World := ⟨[], none, none, true⟩

/-- A directory holding only a non-matching file. -/
def wTxtOnly : World := ⟨[sampleTxt], none, none, false⟩

/-- One-file world used to build a matching persisted digest. -/
def wA : World := ⟨[sampleA], none, none, false⟩

/-- World whose persisted digest matches the current one but whose combined
artifact is missing. -/
def wMatchMissing : World :=
  ⟨[sampleA], some (calculate_checksum wA (get_files_sorted_by_mtime wA)),
    none, false⟩

/-- Both external tools exit 0. -/
def bOk : ExtBehavior := ⟨0, 0⟩

/-- The transcoder fails with exit status 1. -/
def bFfmpegFail : ExtBehavior := ⟨1, 0⟩

/-- The player fails with exit status 2. -/
def bMpvFail : ExtBehavior := ⟨0, 2⟩

/-! ### Claims about the loop body -/

/-- C1: in an iteration that finds at least one file, the rebuild (the
ffmpeg invocation) happens iff the freshly computed digest differs from the
persisted one or the combined artifact is missing; in particular a matching
persisted digest with a missing artifact still triggers a rebuild. -/
theorem C1_rebuild_iff_digest_or_artifact (w : World) (b : ExtBehavior)
    (hne : get_files_sorted_by_mtime w ≠ []) :
    (hasFfmpegRun (loopBody w b).events = true ↔
      (calculate_checksum w (get_files_sorted_by_mtime w)
          ≠ read_previous_checksum w.checksumFile ∨ w.outputExists = false)) ∧
    ((read_previous_checksum w.checksumFile
          = calculate_checksum w (get_files_sorted_by_mtime w)
        ∧ w.outputExists = false) →
      hasFfmpegRun (loopBody w b).events = true) := by
  have main : hasFfmpegRun (loopBody w b).events = true ↔
      (calculate_checksum w (get_files_sorted_by_mtime w)
          ≠ read_previous_checksum w.checksumFile ∨ w.outputExists = false) := by
    by_cases hcond : calculate_checksum w (get_files_sorted_by_mtime w)
        ≠ read_previous_checksum w.checksumFile ∨ w.outputExists = false
    · refine iff_of_true ?_ hcond
      by_cases hf : b.ffmpegExit = 0
      · rw [loopBody_rebuild_ok b hne hcond hf]
        dsimp only
        rw [play_audio_events]
        decide
      · rw [loopBody_rebuild_fail b hne hcond hf]
        dsimp only
        decide
    · refine iff_of_false ?_ hcond
      push_neg at hcond
      obtain ⟨hc, ho⟩ := hcond
      rw [loopBody_skip b hne hc (by simpa using ho)]
      dsimp only
      rw [play_audio_events]
      decide
  exact ⟨main, fun hh => main.mpr (Or.inr hh.2)⟩

set_option maxRecDepth 1000000 in
theorem C1_rebuild_iff_digest_or_artifact_witness :
    get_files_sorted_by_mtime wMatchMissing ≠ [] ∧
    (read_previous_checksum wMatchMissing.checksumFile
        = calculate_checksum wMatchMissing
            (get_files_sorted_by_mtime wMatchMissing)
      ∧ wMatchMissing.outputExists = false) ∧
    hasFfmpegRun (loopBody wMatchMissing bOk).events = true := by
  have h := C1_rebuild_iff_digest_or_artifact wMatchMissing bOk (by decide)
  exact ⟨by decide, ⟨by decide, by decide⟩, h.2 ⟨by decide, by decide⟩⟩

theorem C2_scanner_sorted_by_mtime_witness :
    ((wScrambled.walk.map WalkEntry.fullPath).Nodup ∧
     ((wScrambled.walk.filter (fun e => pyEndsWith e.filename ".wav")).map
        WalkEntry.mtime).Nodup) ∧
    (get_files_sorted_by_mtime wScrambled ".wav").Perm
        ((wScrambled.walk.filter (fun e => pyEndsWith e.filename ".wav")).map
          WalkEntry.fullPath) ∧
    (get_files_sorted_by_mtime wScrambled ".wav").Sorted
        (fun a b => wScrambled.getmtime a ≤ wScrambled.getmtime b) ∧
    get_files_sorted_by_mtime wPermuted ".wav"
      = get_files_sorted_by_mtime wScrambled ".wav" ∧
    get_files_sorted_by_mtime wEmpty ".wav" = [] := by
  have h := C2_scanner_sorted_by_mtime wScrambled ".wav" (by decide) (by decide)
  have hvac := C2_scanner_sorted_by_mtime wEmpty ".wav" (by decide) (by decide)
  exact ⟨⟨by decide, by decide⟩, h.1, h.2.1, h.2.2.1 wPermuted (by decide),
    hvac.2.2.2 rfl⟩

/-- Helper: an iteration starting from the state a successful rebuild leaves
behind (same walk, artifact present, persisted digest equal to the current
one) takes the skip branch. -/
theorem loopBody_skip_after_rebuild (w : World) (b2 : ExtBehavior)
    (pl : Option String) (hne : get_files_sorted_by_mtime w ≠ []) :
    loopBody
        { w with
            playlistFile := pl,
            outputExists := true,
            checksumFile :=
              some (calculate_checksum w (get_files_sorted_by_mtime w)) } b2
      = ⟨{ w with
            playlistFile := pl,
            outputExists := true,
            checksumFile :=
              some (calculate_checksum w (get_files_sorted_by_mtime w)) },
         (play_audio output_file b2.mpvExit).1,
         [Event.print "No changes detected. Using existing combined audio file.",
          Event.print "Playing combined playlist..."]
           ++ (play_audio output_file b2.mpvExit).2⟩ := by
  set W : World :=
    { w with
        playlistFile := pl,
        outputExists := true,
        checksumFile :=
          some (calculate_checksum w (get_files_sorted_by_mtime w)) } with hW
  have hwalk : W.walk = w.walk := rfl
  have hfiles : get_files_sorted_by_mtime W = get_files_sorted_by_mtime w :=
    get_files_congr hwalk ".wav"
  have hne' : get_files_sorted_by_mtime W ≠ [] := by
    rw [hfiles]
    exact hne
  have hcur : calculate_checksum W (get_files_sorted_by_mtime W)
      = calculate_checksum w (get_files_sorted_by_mtime w) := by
    rw [hfiles]
    exact calculate_checksum_congr hwalk _
  have hprev : read_previous_checksum W.checksumFile
      = calculate_checksum w (get_files_sorted_by_mtime w) := by
    show pyStrip _ = _
    exact pyStrip_calculate_checksum w _
  exact loopBody_skip b2 hne' (by rw [hcur, hprev]) rfl

/-- C4: when an iteration rebuilds successfully (transcoder and player exit
0), a second iteration over the unchanged file set does not rebuild: no
transcoder invocation, no checksum write, no manifest write — the checksum
comparison short-circuits to the skip branch. -/
theorem C4_second_iteration_skips (w : World) (b1 b2 : ExtBehavior)
    (hne : get_files_sorted_by_mtime w ≠ [])
    (hcond : calculate_checksum w (get_files_sorted_by_mtime w)
        ≠ read_previous_checksum w.checksumFile ∨ w.outputExists = false)
    (hf : b1.ffmpegExit = 0) (_hm : b1.mpvExit = 0) :
    hasFfmpegRun (loopBody (loopBody w b1).world b2).events = false ∧
    (loopBody (loopBody w b1).world b2).world.checksumFile
      = (loopBody w b1).world.checksumFile ∧
    (loopBody (loopBody w b1).world b2).world.playlistFile
      = (loopBody w b1).world.playlistFile ∧
    (loopBody (loopBody w b1).world b2).events
      = [Event.print "No changes detected. Using existing combined audio file.",
         Event.print "Playing combined playlist...",
         Event.run (mpvCmd output_file)] := by
  rw [loopBody_rebuild_ok b1 hne hcond hf]
  dsimp only
  rw [loopBody_skip_after_rebuild w b2 _ hne]
  dsimp only
  refine ⟨?_, rfl, rfl, ?_⟩
  · rw [play_audio_events]
    decide
  · rw [play_audio_events]
    rfl

set_option maxRecDepth 1000000 in
theorem C4_second_iteration_skips_witness :
    get_files_sorted_by_mtime wScrambled ≠ [] ∧
    hasFfmpegRun (loopBody (loopBody wScrambled bOk).world bOk).events
      = false ∧
    (loopBody (loopBody wScrambled bOk).world bOk).events
      = [Event.print "No changes detected. Using existing combined audio file.",
         Event.print "Playing combined playlist...",
         Event.run (mpvCmd output_file)] := by
  have h := C4_second_iteration_skips wScrambled bOk bOk (by decide)
    (by decide) (by decide) (by decide)
  exact ⟨by decide, h.1, h.2.2.2⟩

/-- C5: the persisted checksum is updated exactly when the triggered
rebuild's concatenation succeeds — after a successful transcoder run the
checksum file holds the fresh digest; when the transcoder raises, or no
rebuild is triggered, the checksum file is unchanged. -/
theorem C5_checksum_written_iff_concat_ok (w : World) (b : ExtBehavior)
    (hne : get_files_sorted_by_mtime w ≠ []) :
    ((calculate_checksum w (get_files_sorted_by_mtime w)
        ≠ read_previous_checksum w.checksumFile ∨ w.outputExists = false) →
      b.ffmpegExit = 0 →
      (loopBody w b).world.checksumFile
        = some (calculate_checksum w (get_files_sorted_by_mtime w))) ∧
    ((calculate_checksum w (get_files_sorted_by_mtime w)
        ≠ read_previous_checksum w.checksumFile ∨ w.outputExists = false) →
      b.ffmpegExit ≠ 0 →
      (loopBody w b).world.checksumFile = w.checksumFile) ∧
    (¬(calculate_checksum w (get_files_sorted_by_mtime w)
        ≠ read_previous_checksum w.checksumFile ∨ w.outputExists = false) →
      (loopBody w b).world.checksumFile = w.checksumFile) := by
  refine ⟨fun hcond hf => ?_, fun hcond hf => ?_, fun hcond => ?_⟩
  · rw [loopBody_rebuild_ok b hne hcond hf]
  · rw [loopBody_rebuild_fail b hne hcond hf]
  · push_neg at hcond
    obtain ⟨hc, ho⟩ := hcond
    rw [loopBody_skip b hne hc (by simpa using ho)]

set_option maxRecDepth 1000000 in
theorem C5_checksum_written_iff_concat_ok_witness :
    get_files_sorted_by_mtime wScrambled ≠ [] ∧
    (loopBody wScrambled bOk).world.checksumFile
      = some (calculate_checksum wScrambled
          (get_files_sorted_by_mtime wScrambled)) ∧
    (loopBody wScrambled bFfmpegFail).world.checksumFile
      = wScrambled.checksumFile := by
  refine ⟨by decide, ?_, ?_⟩
  · exact (C5_checksum_written_iff_concat_ok wScrambled bOk (by decide)).1
      (by decide) (by decide)
  · exact (C5_checksum_written_iff_concat_ok wScrambled bFfmpegFail
      (by decide)).2.1 (by decide) (by decide)

/-- C7: the playlist builder produces exactly one `file '<path>'` line per
file, in the supplied order, overwriting whatever manifest existed before,
with no escaping of embedded single quotes; for three files with
modification times 1, 2, 3 the manifest lists them in that order. -/
theorem C7_playlist_one_line_per_file (files : List String) :
    (generate_playlist files
      = String.join (files.map (fun f => "file '" ++ f ++ "'\n"))) ∧
    (∀ (w : World) (b : ExtBehavior),
      get_files_sorted_by_mtime w ≠ [] →
      (calculate_checksum w (get_files_sorted_by_mtime w)
          ≠ read_previous_checksum w.checksumFile ∨ w.outputExists = false) →
      (loopBody w b).world.playlistFile
        = some (generate_playlist (get_files_sorted_by_mtime w))) ∧
    get_files_sorted_by_mtime wScrambled
      = [sampleA.fullPath, sampleB.fullPath, sampleC.fullPath] ∧
    generate_playlist (get_files_sorted_by_mtime wScrambled)
      = "file '/Volumes/BrahmaSSD/music/AiGen/a.wav'\nfile '/Volumes/BrahmaSSD/music/AiGen/b.wav'\nfile '/Volumes/BrahmaSSD/music/AiGen/c.wav'\n" ∧
    generate_playlist ["/tmp/it's.wav"] = "file '/tmp/it's.wav'\n" := by
  refine ⟨generate_playlist_join files, ?_, by decide, by decide, by decide⟩
  intro w b hne hcond
  by_cases hf : b.ffmpegExit = 0
  · rw [loopBody_rebuild_ok b hne hcond hf]
  · rw [loopBody_rebuild_fail b hne hcond hf]

set_option maxRecDepth 1000000 in
theorem C7_playlist_one_line_per_file_witness :
    generate_playlist [sampleA.fullPath]
      = String.join ([sampleA.fullPath].map (fun f => "file '" ++ f ++ "'\n"))
    ∧ (loopBody wScrambled bOk).world.playlistFile
      = some (generate_playlist (get_files_sorted_by_mtime wScrambled)) := by
  have h := C7_playlist_one_line_per_file [sampleA.fullPath]
  exact ⟨h.1, h.2.1 wScrambled bOk (by decide) (by decide)⟩

/-- C8: an iteration whose scan finds nothing only logs the no-files
message: the filesystem state is untouched (no manifest write, no checksum
write), no exception is raised, and no transcoder runs. -/
theorem C8_empty_scan_no_rebuild (w : World) (b : ExtBehavior)
    (h : get_files_sorted_by_mtime w = []) :
    loopBody w b
      = ⟨w, none, [Event.print "No .wav files found in the directory."]⟩ ∧
    hasFfmpegRun (loopBody w b).events = false := by
  refine ⟨loopBody_no_files b h, ?_⟩
  rw [loopBody_no_files b h]
  rfl

theorem C8_empty_scan_no_rebuild_witness :
    get_files_sorted_by_mtime wTxtOnly = [] ∧
    loopBody wTxtOnly bOk
      = ⟨wTxtOnly, none,
         [Event.print "No .wav files found in the directory."]⟩ ∧
    hasFfmpegRun (loopBody wTxtOnly bOk).events = false := by
  have h := C8_empty_scan_no_rebuild wTxtOnly bOk (by decide)
  exact ⟨by decide, h.1, h.2⟩

/-- C9 counterexample: an iteration that finds no matching files while a
stale artifact exists does NOT proceed to the PLAY stage — the player is
never invoked, contradicting the claim that playback is still attempted. -/
theorem C9_no_files_still_plays_counterexample :
    hasMpvRun (loopBody wEmpty bOk).events = false ∧ wEmpty.outputExists = true := by
  exact ⟨by decide, rfl⟩

/-- C9 (amended): when the scan finds no matching files the condition is
logged and the rest of the iteration — including the PLAY stage — is
skipped; the watch loop then proceeds with its next iteration. -/
theorem C9_no_files_skips_play (w : World) (b : ExtBehavior)
    (bs : List ExtBehavior) (h : get_files_sorted_by_mtime w = []) :
    (loopBody w b).events
      = [Event.print "No .wav files found in the directory."] ∧
    hasMpvRun (loopBody w b).events = false ∧
    runLoop w (b :: bs)
      = ⟨(runLoop w bs).world, (runLoop w bs).error,
         Event.print "No .wav files found in the directory."
           :: (runLoop w bs).events⟩ := by
  have hbody := loopBody_no_files b h
  refine ⟨by rw [hbody], by rw [hbody]; rfl, ?_⟩
  rw [runLoop_cons_ok bs (by rw [hbody])]
  rw [hbody]
  rfl

theorem C9_no_files_skips_play_witness :
    get_files_sorted_by_mtime wTxtOnly = [] ∧
    hasMpvRun (loopBody wTxtOnly bOk).events = false ∧
    runLoop wTxtOnly (bOk :: [])
      = ⟨(runLoop wTxtOnly []).world, (runLoop wTxtOnly []).error,
         Event.print "No .wav files found in the directory."
           :: (runLoop wTxtOnly []).events⟩ := by
  have h := C9_no_files_skips_play wTxtOnly bOk [] (by decide)
  exact ⟨by decide, h.2.1, h.2.2⟩

/-- C10: a non-zero exit status of either external tool is fatal — the
transcoder's failure during a rebuild, or the player's failure, surfaces as
an uncaught `CalledProcessError`, and the watch loop runs no further
iteration once an iteration raised. -/
theorem C10_nonzero_exit_fatal (w : World) (b : ExtBehavior)
    (bs : List ExtBehavior) :
    ((get_files_sorted_by_mtime w ≠ []) →
      (calculate_checksum w (get_files_sorted_by_mtime w)
          ≠ read_previous_checksum w.checksumFile ∨ w.outputExists = false) →
      b.ffmpegExit ≠ 0 →
      (loopBody w b).error
        = some (PyExcept.calledProcessError
            (ffmpegCmd playlist_file output_file) b.ffmpegExit)) ∧
    ((get_files_sorted_by_mtime w ≠ []) →
      b.ffmpegExit = 0 → b.mpvExit ≠ 0 →
      (loopBody w b).error
        = some (PyExcept.calledProcessError (mpvCmd output_file) b.mpvExit)) ∧
    (∀ e : PyExcept, (loopBody w b).error = some e →
      runLoop w (b :: bs)
        = ⟨(loopBody w b).world, some e, (loopBody w b).events⟩) := by
  refine ⟨fun hne hcond hf => ?_, fun hne hf hm => ?_, fun e he => ?_⟩
  · rw [loopBody_rebuild_fail b hne hcond hf]
  · by_cases hcond : calculate_checksum w (get_files_sorted_by_mtime w)
        ≠ read_previous_checksum w.checksumFile ∨ w.outputExists = false
    · rw [loopBody_rebuild_ok b hne hcond hf]
      dsimp only
      exact play_audio_error_of_ne output_file b.mpvExit hm
    · push_neg at hcond
      obtain ⟨hc, ho⟩ := hcond
      rw [loopBody_skip b hne hc (by simpa using ho)]
      dsimp only
      exact play_audio_error_of_ne output_file b.mpvExit hm
  · exact runLoop_cons_err bs he

set_option maxRecDepth 1000000 in
theorem C10_nonzero_exit_fatal_witness :
    (loopBody wScrambled bFfmpegFail).error
      = some (PyExcept.calledProcessError
          (ffmpegCmd playlist_file output_file) 1) ∧
    (loopBody wScrambled bMpvFail).error
      = some (PyExcept.calledProcessError (mpvCmd output_file) 2) ∧
    runLoop wScrambled (bFfmpegFail :: [bOk])
      = ⟨(loopBody wScrambled bFfmpegFail).world,
         some (PyExcept.calledProcessError
           (ffmpegCmd playlist_file output_file) 1),
         (loopBody wScrambled bFfmpegFail).events⟩ := by
  have h1 := (C10_nonzero_exit_fatal wScrambled bFfmpegFail [bOk]).1
    (by decide) (by decide) (by decide)
  have h2 := (C10_nonzero_exit_fatal wScrambled bMpvFail [bOk]).2.1
    (by decide) (by decide) (by decide)
  have h3 := (C10_nonzero_exit_fatal wScrambled bFfmpegFail [bOk]).2.2 _ h1
  exact ⟨h1, h2, h3⟩
